import Mathlib

/-!
Shallow embedding of `src/pngx_upload/pngx_upload.py` (the
`python-paperless-uploader` repository) and verification of its
natural-language specification.

The Python source is a single script with one class,
`PaperlessNGXUploader` (connection probe, multipart document upload,
task-status lookup), a batch driver `process_handwriting_dataset`
(index-range iteration, title derivation, image normalization,
success/failure tally, final summary), and a CLI `main` (argument
validation).  Strings are modelled as `List Char` (Python `len` and
slicing count code points), Python `dict` as an insertion-ordered
association list with overwrite-on-repeated-key semantics, machine-level
HTTP traffic as an explicit environment parameter, and fallible
operations as `Option`.
-/

namespace PngxUpload

/-- Python strings, modelled as lists of characters (code points). -/
abbrev Chars := List Char

/-- ASCII whitespace recognised by Python's `str.strip`/`str.split`
(the script's dataset text is ASCII/Latin; the full Unicode whitespace
set of Python adds only more characters of the same kind). -/
def pyIsSpace (c : Char) : Bool :=
  c = ' ' || c = '\t' || c = '\n' || c = '\r' || c = '\x0b' || c = '\x0c'

/-- Python `str.strip()`: remove leading and trailing whitespace. -/
def pyStrip (s : Chars) : Chars :=
  ((s.dropWhile pyIsSpace).reverse.dropWhile pyIsSpace).reverse

/-- Accumulator-passing helper for `pySplit`: `acc` holds the reversed
characters of the word currently being read. -/
def pySplitAux : Chars → Chars → List Chars
  | [], acc => if acc = [] then [] else [acc.reverse]
  | c :: rest, acc =>
    if pyIsSpace c then
      if acc = [] then pySplitAux rest [] else acc.reverse :: pySplitAux rest []
    else
      pySplitAux rest (c :: acc)

/-- Python `str.split()` with no argument: split on runs of whitespace,
discarding empty pieces. -/
def pySplit (s : Chars) : List Chars := pySplitAux s []

/-- Fuel-driven decimal digit expansion (most significant digit first).
The fuel only has to exceed the argument; structural recursion on the
fuel keeps the definition kernel-reducible. -/
def natToDigitsAux : Nat → Nat → Chars
  | 0, _ => []
  | fuel + 1, n =>
    if n < 10 then [Nat.digitChar n]
    else natToDigitsAux fuel (n / 10) ++ [Nat.digitChar (n % 10)]

/-- Decimal digits of `n`, as Python's `str(n)` produces for `n ≥ 0`. -/
def natToDigits (n : Nat) : Chars := natToDigitsAux (n + 1) n

/-- Python `str(i)` for an `int`. -/
def strOfInt (i : Int) : Chars :=
  if i < 0 then '-' :: natToDigits i.natAbs else natToDigits i.natAbs

/-- Python's format specifier `{n:05d}` for `n ≥ 0`: left-pad the decimal
digits with zeros to width 5 (wider numbers are left unpadded). -/
def zfill5 (ds : Chars) : Chars := List.replicate (5 - ds.length) '0' ++ ds

/-- Line 245 of the source: the synthetic title used when the sample text
is empty after stripping, `f"German Handwriting Sample {j+1:05d}"`. -/
def fallbackTitle (j : Nat) : Chars :=
  "German Handwriting Sample ".data ++ zfill5 (natToDigits (j + 1))

/-- Lines 238-245 of the source: derive the document title from the raw
sample text and the 0-based dataset index `j`.
`text = sample.get('text', '').strip()`; if non-empty, the title is
`"German Handwriting: "` followed by the first 10 whitespace-separated
words, truncated to `title[:97] + "..."` when longer than 100
characters; otherwise the synthetic `fallbackTitle`. -/
def deriveTitle (rawText : Chars) (j : Nat) : Chars :=
  let text := pyStrip rawText
  if text = [] then
    fallbackTitle j
  else
    let words := (pySplit text).take 10
    let title := "German Handwriting: ".data ++ List.intercalate [' '] words
    if 100 < title.length then title.take 97 ++ "...".data else title

/-- Python `s.lower()` (ASCII case folding; the script only lowers file
paths it built itself from ASCII). -/
def pyLower (s : Chars) : Chars := s.map Char.toLower

/-- Python `s.endswith(suf)`. -/
def pyEndsWith (s suf : Chars) : Bool := decide (s.reverse.take suf.length = suf.reverse)

/-- Python `s.startswith(p)`. -/
def pyStartsWith (s p : Chars) : Bool := decide (s.take p.length = p)

/-- Python `os.path.basename`: the part of the path after the last `/`. -/
def pyBasename (s : Chars) : Chars :=
  s.foldl (fun acc c => if c = '/' then [] else acc ++ [c]) []

/-- Lines 82-87 of the source: infer the multipart content type from the
lowercased file extension (`.png` → `image/png`, `.pdf` →
`application/pdf`, anything else → `image/jpeg`). -/
def contentTypeFor (file_path : Chars) : Chars :=
  if pyEndsWith (pyLower file_path) ".png".data then "image/png".data
  else if pyEndsWith (pyLower file_path) ".pdf".data then "application/pdf".data
  else "image/jpeg".data

/-- Python `dict` assignment `d[k] = v` on an insertion-ordered
association list: overwrite the value in place if the key exists,
otherwise append the pair at the end. -/
def dictInsert : List (Chars × Chars) → Chars → Chars → List (Chars × Chars)
  | [], k, v => [(k, v)]
  | (k', v') :: rest, k, v =>
    if k' = k then (k, v) :: rest else (k', v') :: dictInsert rest k v

/-- Python `d.get(k)` on the association list. -/
def dictLookup : List (Chars × Chars) → Chars → Option Chars
  | [], _ => none
  | (k', v) :: rest, k => if k' = k then some v else dictLookup rest k

/-- How many entries of the association list carry key `k` (at most one,
by `dict` semantics). -/
def countKey (d : List (Chars × Chars)) (k : Chars) : Nat :=
  (d.filter (fun p => p.1 == k)).length

/-- The multipart request assembled by `upload_document` (lines 80-116):
the `files` part (field name `document`, the file's base name and inferred
content type) and the `data` form-field dictionary. -/
structure MultipartRequest where
  fileFieldName : Chars
  fileName : Chars
  fileContentType : Chars
  formData : List (Chars × Chars)
deriving DecidableEq

/-- Lines 89-107 of the source: build the multipart request.
`data` starts as `{'title': title, 'created': today}`; `if document_type:`
and `if correspondent:` (Python truthiness: `None` and `0` are falsy) add
one field each; `if tags:` (empty list falsy) runs
`for tag in tags: data['tags'] = str(tag)` — repeated assignment to the
same `dict` key.  `text_content` is accepted by the Python function but
never used in its body. -/
def buildUploadRequest (file_path title : Chars) (text_content : Option Chars)
    (tags : Option (List Int)) (document_type correspondent : Option Int)
    (today : Chars) : MultipartRequest :=
  let data0 : List (Chars × Chars) := [("title".data, title), ("created".data, today)]
  let data1 := match document_type with
    | some n => if n = 0 then data0 else dictInsert data0 "document_type".data (strOfInt n)
    | none => data0
  let data2 := match correspondent with
    | some n => if n = 0 then data1 else dictInsert data1 "correspondent".data (strOfInt n)
    | none => data1
  let data3 := match tags with
    | some ts =>
      if ts = [] then data2
      else ts.foldl (fun d t => dictInsert d "tags".data (strOfInt t)) data2
    | none => data2
  { fileFieldName := "document".data
    fileName := pyBasename file_path
    fileContentType := contentTypeFor file_path
    formData := data3 }

/-- An HTTP response (status code and body) as seen by the script. -/
structure HttpResponse where
  status : Nat
  body : Chars

/-- Lines 62-127 of the source, `PaperlessNGXUploader.upload_document`:
build the multipart request, POST it, and return the parsed body on
status 200, `None` otherwise.  `env` is the HTTP environment: the
response the network produces for a given request (`none` models
`requests.post` raising, which the `except` clause turns into `None`). -/
def upload_document (env : MultipartRequest → Option HttpResponse)
    (file_path title : Chars) (text_content : Option Chars)
    (tags : Option (List Int)) (document_type correspondent : Option Int)
    (today : Chars) : Option Chars :=
  let req := buildUploadRequest file_path title text_content tags document_type correspondent today
  match env req with
  | some resp => if resp.status = 200 then some resp.body else none
  | none => none

/-- Outcome of the connection probe `requests.get(f"{url}/api/")`:
either a response with some status code, or a raised exception. -/
inductive ProbeOutcome where
  | response (status : Nat)
  | connError
deriving DecidableEq

/-- Lines 48-60 of the source, `PaperlessNGXUploader.test_connection`:
`True` exactly when the probe returns status 200; any other status gives
`False`, and the bare `except` clause turns every exception into `False`
(the embedding is a total function — the Python method never raises). -/
def test_connection : ProbeOutcome → Bool
  | .response s => if s = 200 then true else false
  | .connError => false

/-- Lines 208-212 of the source, fused: the outer loop
`for i in range(start_index, end_index, batch_size)` together with the
inner `for j in range(i, batch_end)` where
`batch_end = min(i + batch_size, end_index)`.  Produces the attempted
dataset indices in order.  (For `bs = 0` Python's `range` raises; the
embedding returns `[]`, a case outside every claim's `0 < batchSize`
validity assumption.) -/
def batchLoop (i e bs : Nat) : List Nat :=
  if h : i < e ∧ 0 < bs then
    List.range' i (min (i + bs) e - i) ++ batchLoop (i + bs) e bs
  else
    []
termination_by e - i
decreasing_by omega

/-- Lines 206-212 of the source: `end_index = min(start_index +
max_documents, len(dataset))` and the batched iteration over
`[start_index, end_index)`. -/
def attemptedIndices (start maxDocs len bs : Nat) : List Nat :=
  batchLoop start (min (start + maxDocs) len) bs

/-- What one iteration of the per-item loop (lines 212-270) does to the
counters: the upload returned a result, the upload returned `None`, or an
exception was raised somewhere in the item's processing. -/
inductive ItemResult where
  | success
  | uploadAbsent
  | raised
deriving DecidableEq

/-- The two counters of lines 202-203, `successful_uploads` and
`failed_uploads`. -/
structure BatchTally where
  successful : Nat
  failed : Nat
deriving DecidableEq

/-- Lines 256-270 of the source: a successful upload increments
`successful_uploads`; an absent upload result or a caught per-item
exception increments `failed_uploads`. -/
def stepTally (t : BatchTally) : ItemResult → BatchTally
  | .success => { t with successful := t.successful + 1 }
  | .uploadAbsent => { t with failed := t.failed + 1 }
  | .raised => { t with failed := t.failed + 1 }

/-- Run the tally over a sequence of per-item outcomes, starting from the
zero-initialised counters of lines 202-203. -/
def runTally (outcomes : List ItemResult) : BatchTally :=
  outcomes.foldl stepTally ⟨0, 0⟩

/-- Line 288 of the source:
`successful_uploads/(successful_uploads + failed_uploads)*100`.
There is no guard: when both counters are zero Python raises
`ZeroDivisionError`, modelled as `none`; otherwise the percentage is
returned (modelled as an exact rational). -/
def success_rate (successful failed : Nat) : Option ℚ :=
  if successful + failed = 0 then none
  else some ((successful : ℚ) / ((successful : ℚ) + (failed : ℚ)) * 100)

/-- The PIL color modes the script distinguishes (lines 226-233): `RGBA`
and `LA` get special treatment, everything else is saved directly. -/
inductive PilMode where
  | RGB
  | RGBA
  | LA
  | L
deriving DecidableEq

/-- One pixel, tagged with the shape its mode gives it. -/
inductive PilPixel where
  | rgb (r g b : Nat)
  | rgba (r g b a : Nat)
  | la (l a : Nat)
  | gray (v : Nat)
deriving DecidableEq

/-- A PIL image: a color mode plus its pixels. -/
structure PilImage where
  mode : PilMode
  pixels : List PilPixel
deriving DecidableEq

/-- PIL `Image.paste(im, mask=alpha)` per channel: blend the source over
the background weighted by the 8-bit alpha value (`a = 0` keeps the
background, `a = 255` takes the source; PIL's exact rounding at
intermediate alphas is abstracted by truncating division — the claims
only exercise `a ∈ {0, 255}`). -/
def blend (bg src a : Nat) : Nat := (bg * (255 - a) + src * a) / 255

/-- Lines 226-233 of the source.  `RGBA`: a white `RGB` background is
created and the image is pasted with `mask=image.split()[-1]` (the alpha
band), so each channel blends over white.  `LA`: a white background is
created but `background.paste(image)` is called WITHOUT a mask, so the
background is fully overwritten by the `LA` image converted to `RGB`
(luminance copied to all three channels, alpha discarded).  Any other
mode is left unchanged for the JPEG encoder. -/
def normalizeForJpeg (img : PilImage) : PilImage :=
  match img.mode with
  | .RGBA =>
    ⟨.RGB, img.pixels.map fun p =>
      match p with
      | .rgba r g b a => .rgb (blend 255 r a) (blend 255 g a) (blend 255 b a)
      | other => other⟩
  | .LA =>
    ⟨.RGB, img.pixels.map fun p =>
      match p with
      | .la l _ => .rgb l l l
      | other => other⟩
  | _ => img

/-- The parsed CLI arguments of `main` (lines 312-329). -/
structure CliArgs where
  url : Chars
  token : Chars
  maxDocs : Int
  startIndex : Int
  documentType : Option Int
  correspondent : Option Int
  batchSize : Int
  dryRun : Bool

/-- Lines 331-342 of the source: argument validation, which runs before
any network activity.  `some 1` models `sys.exit(1)`; `none` means
validation passed and `main` proceeds (prints, the confirmation prompt,
then the connection probe).  The checks are: the URL scheme, `--max > 0`,
`--start ≥ 0` — and nothing else; in particular `--batch-size` is never
examined. -/
def validate_args (a : CliArgs) : Option Nat :=
  if !(pyStartsWith a.url "http://".data || pyStartsWith a.url "https://".data) then some 1
  else if a.maxDocs ≤ 0 then some 1
  else if a.startIndex < 0 then some 1
  else none

/-! Helper lemmas. -/

theorem batchLoop_eq_range_aux (bs : Nat) (hbs : 0 < bs) :
    ∀ n i e, e - i ≤ n → batchLoop i e bs = List.range' i (e - i) := by
  intro n
  induction n with
  | zero =>
    intro i e he
    rw [batchLoop, dif_neg (by omega)]
    have h2 : e - i = 0 := by omega
    rw [h2, List.range'_zero]
  | succ n ih =>
    intro i e he
    rw [batchLoop]
    by_cases hie : i < e
    · rw [dif_pos ⟨hie, hbs⟩, ih (i + bs) e (by omega)]
      rcases le_or_lt (i + bs) e with hle | hlt
      · have hmin : min (i + bs) e - i = bs := by omega
        rw [hmin, List.range'_append_1]
        congr 1
        omega
      · have hmin : min (i + bs) e - i = e - i := by omega
        have h2 : e - (i + bs) = 0 := by omega
        rw [hmin, h2, List.range'_zero, List.append_nil]
    · rw [dif_neg (by omega)]
      have h2 : e - i = 0 := by omega
      rw [h2, List.range'_zero]

/-- With a positive batch size, the fused batch loops of lines 208-212
attempt exactly the contiguous range from `start` to
`min(start + max_documents, len(dataset))`. -/
theorem attemptedIndices_eq_range (start maxDocs len bs : Nat) (hbs : 0 < bs) :
    attemptedIndices start maxDocs len bs
      = List.range' start (min (start + maxDocs) len - start) :=
  batchLoop_eq_range_aux bs hbs _ start _ (Nat.le_refl _)

theorem foldl_stepTally_sum :
    ∀ (outs : List ItemResult) (t : BatchTally),
      (outs.foldl stepTally t).successful + (outs.foldl stepTally t).failed
        = t.successful + t.failed + outs.length := by
  intro outs
  induction outs with
  | nil => intro t; simp
  | cons o rest ih =>
    intro t
    simp only [List.foldl_cons]
    rw [ih]
    cases o <;> simp [stepTally] <;> omega

theorem foldl_stepTally_successful_le :
    ∀ (outs : List ItemResult) (t : BatchTally),
      t.successful ≤ (outs.foldl stepTally t).successful := by
  intro outs
  induction outs with
  | nil => intro t; exact Nat.le_refl _
  | cons o rest ih =>
    intro t
    refine Nat.le_trans ?_ (ih (stepTally t o))
    cases o <;> simp [stepTally]

theorem foldl_stepTally_failed_le :
    ∀ (outs : List ItemResult) (t : BatchTally),
      t.failed ≤ (outs.foldl stepTally t).failed := by
  intro outs
  induction outs with
  | nil => intro t; exact Nat.le_refl _
  | cons o rest ih =>
    intro t
    refine Nat.le_trans ?_ (ih (stepTally t o))
    cases o <;> simp [stepTally]

/-- Every prefix of the per-item outcome sequence keeps
`successful + failed` equal to the number of items consumed, and both
counters grow monotonically. -/
theorem runTally_take_props (outs : List ItemResult) (k : Nat) :
    (runTally (outs.take k)).successful + (runTally (outs.take k)).failed
        = (outs.take k).length ∧
    (runTally (outs.take k)).successful ≤ (runTally (outs.take (k + 1))).successful ∧
    (runTally (outs.take k)).failed ≤ (runTally (outs.take (k + 1))).failed := by
  refine ⟨?_, ?_, ?_⟩
  · have h := foldl_stepTally_sum (outs.take k) ⟨0, 0⟩
    simpa [runTally] using h
  · simp only [runTally, List.take_succ, List.foldl_append]
    exact foldl_stepTally_successful_le _ _
  · simp only [runTally, List.take_succ, List.foldl_append]
    exact foldl_stepTally_failed_le _ _

theorem natToDigitsAux_length_pos (fuel n : Nat) (hf : 0 < fuel) :
    0 < (natToDigitsAux fuel n).length := by
  cases fuel with
  | zero => omega
  | succ f =>
    simp only [natToDigitsAux]
    split <;> simp

theorem natToDigitsAux_length_le :
    ∀ (fuel n k : Nat), n < fuel → n < 10 ^ k →
      (natToDigitsAux fuel n).length ≤ max 1 k := by
  intro fuel
  induction fuel with
  | zero => intro n k h _; omega
  | succ f ih =>
    intro n k hn hk
    simp only [natToDigitsAux]
    by_cases h : n < 10
    · rw [if_pos h]
      simpa using Nat.le_max_left 1 k
    · rw [if_neg h]
      simp only [List.length_append, List.length_cons, List.length_nil]
      obtain ⟨k', rfl⟩ : ∃ k', k = k' + 1 := by
        cases k with
        | zero => simp at hk; omega
        | succ k' => exact ⟨k', rfl⟩
      have hdiv : n / 10 < 10 ^ k' := by
        have hmul : n < 10 ^ k' * 10 := by
          calc n < 10 ^ (k' + 1) := hk
          _ = 10 ^ k' * 10 := by rw [pow_succ]
        exact (Nat.div_lt_iff_lt_mul (by norm_num)).mpr hmul
      have hfuel : n / 10 < f := by
        have := Nat.div_lt_self (show 0 < n by omega) (show 1 < 10 by norm_num)
        omega
      rcases Nat.eq_zero_or_pos k' with rfl | hk'
      · norm_num at hk
        omega
      · have hrec := ih (n / 10) k' hfuel hdiv
        have hmax1 : max 1 k' = k' := Nat.max_eq_right hk'
        have hmax2 : max 1 (k' + 1) = k' + 1 := Nat.max_eq_right (by omega)
        omega

theorem natToDigits_length_le (n k : Nat) (h : n < 10 ^ k) :
    (natToDigits n).length ≤ max 1 k :=
  natToDigitsAux_length_le (n + 1) n k (Nat.lt_succ_self n) h

theorem natToDigits_length_pos (n : Nat) : 0 < (natToDigits n).length :=
  natToDigitsAux_length_pos (n + 1) n (Nat.succ_pos n)

theorem fallbackTitle_length_le (j : Nat) (h : j + 1 < 10 ^ 74) :
    (fallbackTitle j).length ≤ 100 := by
  have hd := natToDigits_length_le (j + 1) 74 h
  have hp := natToDigits_length_pos (j + 1)
  have h26 : ("German Handwriting Sample ".data).length = 26 := by decide
  simp only [fallbackTitle, zfill5, List.length_append, List.length_replicate, h26]
  omega

theorem fallbackTitle_length_pos (j : Nat) : 0 < (fallbackTitle j).length := by
  have h26 : ("German Handwriting Sample ".data).length = 26 := by decide
  simp only [fallbackTitle, zfill5, List.length_append, List.length_replicate, h26]
  omega

theorem deriveTitle_of_stripped_empty (text : Chars) (j : Nat) (h : pyStrip text = []) :
    deriveTitle text j = fallbackTitle j := by
  simp only [deriveTitle]
  rw [if_pos h]

theorem deriveTitle_length_le_of_text (text : Chars) (j : Nat) (h : pyStrip text ≠ []) :
    (deriveTitle text j).length ≤ 100 := by
  simp only [deriveTitle]
  rw [if_neg h]
  split
  · simp only [List.length_append, List.length_take, List.length_cons, List.length_nil]
    omega
  · next h100 => omega

theorem deriveTitle_length_pos (text : Chars) (j : Nat) :
    0 < (deriveTitle text j).length := by
  simp only [deriveTitle]
  split
  · exact fallbackTitle_length_pos j
  · split
    · simp only [List.length_append, List.length_take, List.length_cons, List.length_nil]
      omega
    · simp only [List.length_append, List.length_cons, List.length_nil]
      omega

theorem dictInsert_lookup_self (d : List (Chars × Chars)) (k v : Chars) :
    dictLookup (dictInsert d k v) k = some v := by
  induction d with
  | nil => simp [dictInsert, dictLookup]
  | cons p rest ih =>
    obtain ⟨k', v'⟩ := p
    by_cases h : k' = k
    · simp [dictInsert, dictLookup, h]
    · simp [dictInsert, dictLookup, h, ih]

theorem dictInsert_lookup_ne (d : List (Chars × Chars)) (k v k' : Chars) (h : k ≠ k') :
    dictLookup (dictInsert d k v) k' = dictLookup d k' := by
  induction d with
  | nil => simp [dictInsert, dictLookup, h]
  | cons p rest ih =>
    obtain ⟨k0, v0⟩ := p
    by_cases h0 : k0 = k
    · subst h0
      simp [dictInsert, dictLookup, h]
    · simp [dictInsert, dictLookup, h0, ih]

theorem insFold_lookup_ne (key : Chars) (f : Int → Chars) (ts : List Int)
    (d : List (Chars × Chars)) (k : Chars) (h : key ≠ k) :
    dictLookup (ts.foldl (fun d t => dictInsert d key (f t)) d) k = dictLookup d k := by
  induction ts generalizing d with
  | nil => rfl
  | cons t rest ih =>
    simp only [List.foldl_cons]
    rw [ih, dictInsert_lookup_ne _ _ _ _ h]

theorem data0_lookup_ne (title today k : Chars)
    (h1 : "title".data ≠ k) (h2 : "created".data ≠ k) :
    dictLookup [("title".data, title), ("created".data, today)] k = none := by
  simp [dictLookup, h1, h2]

theorem formData_zero_ids_dt_absent (fp title : Chars) (tc : Option Chars)
    (tags : Option (List Int)) (today : Chars) :
    dictLookup (buildUploadRequest fp title tc tags (some 0) (some 0) today).formData
      "document_type".data = none := by
  have hbase := data0_lookup_ne title today "document_type".data (by decide) (by decide)
  cases tags with
  | none => simpa [buildUploadRequest] using hbase
  | some ts =>
    by_cases hts : ts = []
    · subst hts
      simpa [buildUploadRequest] using hbase
    · simp only [buildUploadRequest, hts, eq_self_iff_true, if_true, if_false]
      rw [insFold_lookup_ne _ _ _ _ _ (by decide)]
      exact hbase

theorem formData_zero_ids_corr_absent (fp title : Chars) (tc : Option Chars)
    (tags : Option (List Int)) (today : Chars) :
    dictLookup (buildUploadRequest fp title tc tags (some 0) (some 0) today).formData
      "correspondent".data = none := by
  have hbase := data0_lookup_ne title today "correspondent".data (by decide) (by decide)
  cases tags with
  | none => simpa [buildUploadRequest] using hbase
  | some ts =>
    by_cases hts : ts = []
    · subst hts
      simpa [buildUploadRequest] using hbase
    · simp only [buildUploadRequest, hts, eq_self_iff_true, if_true, if_false]
      rw [insFold_lookup_ne _ _ _ _ _ (by decide)]
      exact hbase

theorem formData_dt_present (fp title : Chars) (tc : Option Chars)
    (tags : Option (List Int)) (today : Chars) (n : Int) (hn : n ≠ 0) (c : Option Int) :
    dictLookup (buildUploadRequest fp title tc tags (some n) c today).formData
      "document_type".data = some (strOfInt n) := by
  cases c with
  | none =>
    cases tags with
    | none =>
      simp only [buildUploadRequest, hn, eq_self_iff_true, if_true, if_false]
      exact dictInsert_lookup_self _ _ _
    | some ts =>
      by_cases hts : ts = []
      · subst hts
        simp only [buildUploadRequest, hn, eq_self_iff_true, if_true, if_false]
        exact dictInsert_lookup_self _ _ _
      · simp only [buildUploadRequest, hn, hts, eq_self_iff_true, if_true, if_false]
        rw [insFold_lookup_ne _ _ _ _ _ (by decide)]
        exact dictInsert_lookup_self _ _ _
  | some m =>
    by_cases hm : m = 0
    · subst hm
      cases tags with
      | none =>
        simp only [buildUploadRequest, hn, eq_self_iff_true, if_true, if_false]
        exact dictInsert_lookup_self _ _ _
      | some ts =>
        by_cases hts : ts = []
        · subst hts
          simp only [buildUploadRequest, hn, eq_self_iff_true, if_true, if_false]
          exact dictInsert_lookup_self _ _ _
        · simp only [buildUploadRequest, hn, hts, eq_self_iff_true, if_true, if_false]
          rw [insFold_lookup_ne _ _ _ _ _ (by decide)]
          exact dictInsert_lookup_self _ _ _
    · cases tags with
      | none =>
        simp only [buildUploadRequest, hn, hm, eq_self_iff_true, if_true, if_false]
        rw [dictInsert_lookup_ne _ _ _ _ (by decide)]
        exact dictInsert_lookup_self _ _ _
      | some ts =>
        by_cases hts : ts = []
        · subst hts
          simp only [buildUploadRequest, hn, hm, eq_self_iff_true, if_true, if_false]
          rw [dictInsert_lookup_ne _ _ _ _ (by decide)]
          exact dictInsert_lookup_self _ _ _
        · simp only [buildUploadRequest, hn, hm, hts, eq_self_iff_true, if_true, if_false]
          rw [insFold_lookup_ne _ _ _ _ _ (by decide)]
          rw [dictInsert_lookup_ne _ _ _ _ (by decide)]
          exact dictInsert_lookup_self _ _ _

theorem formData_corr_present (fp title : Chars) (tc : Option Chars)
    (tags : Option (List Int)) (today : Chars) (n : Int) (hn : n ≠ 0) (dt : Option Int) :
    dictLookup (buildUploadRequest fp title tc tags dt (some n) today).formData
      "correspondent".data = some (strOfInt n) := by
  cases tags with
  | none =>
    simp only [buildUploadRequest, hn, eq_self_iff_true, if_true, if_false]
    exact dictInsert_lookup_self _ _ _
  | some ts =>
    by_cases hts : ts = []
    · subst hts
      simp only [buildUploadRequest, hn, eq_self_iff_true, if_true, if_false]
      exact dictInsert_lookup_self _ _ _
    · simp only [buildUploadRequest, hn, hts, eq_self_iff_true, if_true, if_false]
      rw [insFold_lookup_ne _ _ _ _ _ (by decide)]
      exact dictInsert_lookup_self _ _ _

/-! Claim theorems. -/

/-- C1: lines 104-107 run `for tag in tags: data['tags'] = str(tag)` on a
Python `dict`, so each iteration overwrites the previous one.  For the
concrete upload with tags `[1, 2]` the submitted form holds exactly ONE
`tags` field, whose value is `"2"` — not one field per tag id as the
claim states.  (The code contradicts its own comment "Tags can be
specified multiple times".) -/
theorem tags_field_overwritten :
    countKey (buildUploadRequest "f.jpg".data "t".data none (some [1, 2])
      none none "2026-10-12".data).formData "tags".data = 1 ∧
    dictLookup (buildUploadRequest "f.jpg".data "t".data none (some [1, 2])
      none none "2026-10-12".data).formData "tags".data = some "2".data := by
  decide

/-- C2: with dataset length 5, `start=5`, `max=10` the run reaches the end
of its (empty) index range with zero attempted items, and line 288
computes `successful/(successful+failed)*100` with both counters zero:
the division is NOT guarded, so Python raises `ZeroDivisionError`
(modelled as `success_rate 0 0 = none`) and the success-rate line is
never printed. -/
theorem zero_attempted_division_unguarded :
    attemptedIndices 5 10 5 10 = [] ∧
    runTally [] = ⟨0, 0⟩ ∧
    success_rate 0 0 = none := by
  refine ⟨?_, rfl, rfl⟩
  rw [attemptedIndices_eq_range 5 10 5 10 (by norm_num)]
  decide

/-- C3: for every positive batch size, the set of dataset indices the
batch loops of lines 206-212 attempt is exactly
`[start, min(start + max, datasetLength))`; when `start + max` exceeds
the dataset length this is exactly `[start, datasetLength)`; and for
dataset length 5, `start = 3`, `max = 10` (batch size 10) exactly the
indices 3 and 4 are attempted. -/
theorem attempted_index_set_exact (start maxDocs len bs : Nat) (hbs : 0 < bs) :
    (∀ j, j ∈ attemptedIndices start maxDocs len bs
        ↔ start ≤ j ∧ j < min (start + maxDocs) len) ∧
    (len < start + maxDocs →
      ∀ j, j ∈ attemptedIndices start maxDocs len bs ↔ start ≤ j ∧ j < len) ∧
    attemptedIndices 3 10 5 10 = [3, 4] := by
  have hmem : ∀ j, j ∈ attemptedIndices start maxDocs len bs
      ↔ start ≤ j ∧ j < min (start + maxDocs) len := by
    intro j
    rw [attemptedIndices_eq_range _ _ _ _ hbs, List.mem_range'_1]
    omega
  refine ⟨hmem, ?_, ?_⟩
  · intro hlen j
    rw [hmem j]
    omega
  · rw [attemptedIndices_eq_range 3 10 5 10 (by norm_num)]
    decide

/-- Witness for C3 at the concrete scenario of the claim. -/
theorem attempted_index_set_witness :
    0 < 10 ∧ (3 ∈ attemptedIndices 3 10 5 10 ↔ 3 ≤ 3 ∧ 3 < min (3 + 10) 5) :=
  ⟨by decide, (attempted_index_set_exact 3 10 5 10 (by decide)).1 3⟩

/-- C4: at every prefix of the run (the first `k` attempted indices,
whatever per-item outcome `env` each attempt produced — success, absent
upload result, or a caught exception), `successful + failed` equals the
number of indices attempted so far, and neither counter ever
decreases. -/
theorem tally_attempted_invariant (start maxDocs len bs k : Nat)
    (env : Nat → ItemResult) :
    ((runTally (((attemptedIndices start maxDocs len bs).map env).take k)).successful
        + (runTally (((attemptedIndices start maxDocs len bs).map env).take k)).failed
        = (((attemptedIndices start maxDocs len bs).map env).take k).length) ∧
    (runTally (((attemptedIndices start maxDocs len bs).map env).take k)).successful
        ≤ (runTally (((attemptedIndices start maxDocs len bs).map env).take (k + 1))).successful ∧
    (runTally (((attemptedIndices start maxDocs len bs).map env).take k)).failed
        ≤ (runTally (((attemptedIndices start maxDocs len bs).map env).take (k + 1))).failed :=
  runTally_take_props _ _

set_option maxRecDepth 4000 in
/-- C5 counterexample: the claim "no produced title exceeds 100
characters" fails on the untruncated fallback branch (line 245): at the
0-based index `10^74 - 1` the synthetic title
`"German Handwriting Sample "` + 75 digits is 101 characters long. -/
theorem title_length_counterexample :
    100 < (deriveTitle [] (10 ^ 74 - 1)).length := by decide

/-- C5 (amended): title derivation (lines 238-245) is a deterministic
pure function of the sample text and the 0-based index (the embedding
`deriveTitle` is that function); the title is never empty; empty or
whitespace-only text yields the synthetic fallback embedding the 1-based
index zero-padded to 5 digits; text-derived titles never exceed 100
characters; and the 100-character bound holds for every title — fallback
included — whenever the 1-based index has at most 74 decimal digits
(`j + 1 < 10^74`). -/
theorem title_derivation_amended (text : Chars) (j : Nat) :
    deriveTitle text j ≠ [] ∧
    (pyStrip text = [] → deriveTitle text j = fallbackTitle j) ∧
    (pyStrip text ≠ [] → (deriveTitle text j).length ≤ 100) ∧
    (j + 1 < 10 ^ 74 → (deriveTitle text j).length ≤ 100) := by
  refine ⟨?_, deriveTitle_of_stripped_empty text j, deriveTitle_length_le_of_text text j, ?_⟩
  · intro hnil
    have := deriveTitle_length_pos text j
    rw [hnil] at this
    simp at this
  · intro hj
    by_cases h : pyStrip text = []
    · rw [deriveTitle_of_stripped_empty text j h]
      exact fallbackTitle_length_le j hj
    · exact deriveTitle_length_le_of_text text j h

/-- Witness for C5 at the 1-based index 7 of the spec's example. -/
theorem title_derivation_witness :
    pyStrip [] = ([] : Chars) ∧
    deriveTitle [] 6 = fallbackTitle 6 ∧
    (6 : Nat) + 1 < 10 ^ 74 ∧
    (deriveTitle [] 6).length ≤ 100 :=
  ⟨rfl, (title_derivation_amended [] 6).2.1 rfl, by norm_num,
    (title_derivation_amended [] 6).2.2.2 (by norm_num)⟩

/-- C6: `test_connection` (lines 48-60) is a total function of the probe
outcome (the bare `except` clause means it never raises): it returns
`false` on a raised exception and on every non-success status, and it
returns `true` only when the probe produced a success-class status
(specifically 200). -/
theorem connection_probe_false_on_failure :
    test_connection .connError = false ∧
    (∀ s, ¬(200 ≤ s ∧ s < 300) → test_connection (.response s) = false) ∧
    (∀ o, test_connection o = true
      → ∃ s, o = ProbeOutcome.response s ∧ 200 ≤ s ∧ s < 300) := by
  refine ⟨rfl, ?_, ?_⟩
  · intro s hs
    have hne : s ≠ 200 := by omega
    simp [test_connection, hne]
  · intro o ho
    cases o with
    | response s =>
      refine ⟨s, rfl, ?_⟩
      by_cases hs : s = 200
      · omega
      · simp [test_connection, hs] at ho
    | connError => simp [test_connection] at ho

/-- Witness for C6 at status 500. -/
theorem connection_probe_witness :
    ¬(200 ≤ 500 ∧ 500 < 300) ∧ test_connection (ProbeOutcome.response 500) = false :=
  ⟨by decide, connection_probe_false_on_failure.2.1 500 (by decide)⟩

/-- C7 counterexample: a run with a valid URL, `--max 50`, `--start 0`
but `--batch-size 0` (non-positive, hence invalid per the claim) passes
the argument validation of lines 331-342 (`validate_args` returns
`none`, not an exit), so the program does NOT exit with code 1 before
network activity — `--batch-size` is never validated. -/
theorem batch_size_not_validated :
    (CliArgs.batchSize ⟨"http://localhost:8000".data, "tok".data, 50, 0,
        none, none, 0, false⟩ ≤ 0) ∧
    validate_args ⟨"http://localhost:8000".data, "tok".data, 50, 0,
        none, none, 0, false⟩ = none := by
  decide

/-- C7 (amended): for an invalid URL scheme, a non-positive `--max`, or a
negative `--start`, the program exits with code 1 during argument
validation, which runs before any network activity; `--batch-size` is
not checked. -/
theorem arg_validation_amended (a : CliArgs) :
    (pyStartsWith a.url "http://".data = false →
      pyStartsWith a.url "https://".data = false → validate_args a = some 1) ∧
    (a.maxDocs ≤ 0 → validate_args a = some 1) ∧
    (a.startIndex < 0 → validate_args a = some 1) := by
  refine ⟨?_, ?_, ?_⟩
  · intro h1 h2
    simp [validate_args, h1, h2]
  · intro h
    by_cases hu : (pyStartsWith a.url "http://".data
        || pyStartsWith a.url "https://".data) = true
    · simp [validate_args, hu, h]
    · simp [validate_args, hu]
  · intro h
    by_cases hu : (pyStartsWith a.url "http://".data
        || pyStartsWith a.url "https://".data) = true
    · by_cases hm : a.maxDocs ≤ 0
      · simp [validate_args, hu, hm]
      · simp [validate_args, hu, hm, h]
    · simp [validate_args, hu]

/-- Witness for C7 at an `ftp://` URL. -/
theorem arg_validation_witness :
    pyStartsWith "ftp://h".data "http://".data = false ∧
    validate_args ⟨"ftp://h".data, "tok".data, 50, 0, none, none, 10, false⟩ = some 1 :=
  ⟨by decide,
    (arg_validation_amended ⟨"ftp://h".data, "tok".data, 50, 0, none, none, 10, false⟩).1
      (by decide) (by decide)⟩

/-- C8: the `LA` branch of lines 226-233 calls `background.paste(image)`
WITHOUT the alpha mask, so a fully transparent `LA` pixel with luminance
0 comes out black `(0,0,0)`, not white — the alpha channel is discarded
instead of composited over white.  (The `RGBA` branch, which does pass
`mask=image.split()[-1]`, maps a fully transparent pixel to white, and
the pointless white background built in the `LA` branch shows the same
compositing was intended there.) -/
theorem la_alpha_discarded :
    normalizeForJpeg ⟨.LA, [.la 0 0]⟩ = ⟨.RGB, [.rgb 0 0 0]⟩ ∧
    PilPixel.rgb 0 0 0 ≠ PilPixel.rgb 255 255 255 ∧
    normalizeForJpeg ⟨.RGBA, [.rgba 0 0 0 0]⟩ = ⟨.RGB, [.rgb 255 255 255]⟩ := by
  decide

/-- C9: `text_content` is accepted by `upload_document` (line 62) but
never referenced in its body: two calls differing only in `text_content`
build the identical multipart request and, against the same HTTP
environment, return the identical value — the text content is never
transmitted. -/
theorem text_content_has_no_effect (env : MultipartRequest → Option HttpResponse)
    (fp title : Chars) (tc tc' : Option Chars) (tags : Option (List Int))
    (dt c : Option Int) (today : Chars) :
    buildUploadRequest fp title tc tags dt c today
        = buildUploadRequest fp title tc' tags dt c today ∧
    upload_document env fp title tc tags dt c today
        = upload_document env fp title tc' tags dt c today :=
  ⟨rfl, rfl⟩

/-- C10: Python truthiness in `if document_type:` / `if correspondent:`
(lines 100-103) makes the id 0 indistinguishable from `None`: with value
0 the request equals the request built with the field absent and carries
no `document_type`/`correspondent` form field, while every non-zero id
produces the corresponding field with the id's decimal string. -/
theorem zero_id_means_absent (fp title : Chars) (tc : Option Chars)
    (tags : Option (List Int)) (today : Chars) :
    (buildUploadRequest fp title tc tags (some 0) (some 0) today
        = buildUploadRequest fp title tc tags none none today) ∧
    dictLookup (buildUploadRequest fp title tc tags (some 0) (some 0) today).formData
        "document_type".data = none ∧
    dictLookup (buildUploadRequest fp title tc tags (some 0) (some 0) today).formData
        "correspondent".data = none ∧
    (∀ n : Int, n ≠ 0 → ∀ c : Option Int,
      dictLookup (buildUploadRequest fp title tc tags (some n) c today).formData
        "document_type".data = some (strOfInt n)) ∧
    (∀ n : Int, n ≠ 0 → ∀ dt : Option Int,
      dictLookup (buildUploadRequest fp title tc tags dt (some n) today).formData
        "correspondent".data = some (strOfInt n)) :=
  ⟨rfl, formData_zero_ids_dt_absent fp title tc tags today,
    formData_zero_ids_corr_absent fp title tc tags today,
    fun n hn c => formData_dt_present fp title tc tags today n hn c,
    fun n hn dt => formData_corr_present fp title tc tags today n hn dt⟩

/-- Witness for C10 at document type 3, correspondent 4. -/
theorem zero_id_means_absent_witness :
    ((3 : Int) ≠ 0) ∧
    dictLookup (buildUploadRequest "f.jpg".data "t".data none none (some 3) (some 4)
        "2026-10-12".data).formData "document_type".data = some (strOfInt 3) ∧
    ((4 : Int) ≠ 0) ∧
    dictLookup (buildUploadRequest "f.jpg".data "t".data none none (some 3) (some 4)
        "2026-10-12".data).formData "correspondent".data = some (strOfInt 4) :=
  ⟨by decide,
    (zero_id_means_absent "f.jpg".data "t".data none none "2026-10-12".data).2.2.2.1
      3 (by decide) (some 4),
    by decide,
    (zero_id_means_absent "f.jpg".data "t".data none none "2026-10-12".data).2.2.2.2
      4 (by decide) (some 3)⟩

end PngxUpload
